import Mathlib

/-!
Verification of the deepfake-detection service's scoring logic.

The repository has three near-duplicate service variants:
* `main.py` — md5-based "deterministic score", OpenCV signal statistics combined
  by fixed weights (`analyze_with_hybrid_approach`), fixed-stride video frame
  sampling with averaging (`process_video`);
* `new_backend.py` — md5-based score with randomly jittered feature
  contributions;
* `backend/app/...` — `DeepfakeDetector` with Python-`hash`-based simulated
  sub-scores and a pydantic `AnalysisResult` response model.

Python floats are modelled as exact rationals (`ℚ`); `round(x, 2)` is modelled
as round-half-to-even at two decimal places; byte strings are `List Nat`
(each entry a byte value); Python `str` values are `String` or `List Char`.
MD5 (the `hashlib.md5` call in both `get_deterministic_score` variants) is
embedded concretely below so that the hash-to-score pipeline is executable.
-/

/-! ### MD5 (RFC 1321), operating on byte lists, words as `Nat` mod 2^32 -/

/-- The 64 MD5 sine-derived constants `K[i] = floor(2^32 * |sin(i+1)|)`. -/
def md5K : List Nat :=
  [0xd76aa478, 0xe8c7b756, 0x242070db, 0xc1bdceee,
   0xf57c0faf, 0x4787c62a, 0xa8304613, 0xfd469501,
   0x698098d8, 0x8b44f7af, 0xffff5bb1, 0x895cd7be,
   0x6b901122, 0xfd987193, 0xa679438e, 0x49b40821,
   0xf61e2562, 0xc040b340, 0x265e5a51, 0xe9b6c7aa,
   0xd62f105d, 0x02441453, 0xd8a1e681, 0xe7d3fbc8,
   0x21e1cde6, 0xc33707d6, 0xf4d50d87, 0x455a14ed,
   0xa9e3e905, 0xfcefa3f8, 0x676f02d9, 0x8d2a4c8a,
   0xfffa3942, 0x8771f681, 0x6d9d6122, 0xfde5380c,
   0xa4beea44, 0x4bdecfa9, 0xf6bb4b60, 0xbebfbc70,
   0x289b7ec6, 0xeaa127fa, 0xd4ef3085, 0x04881d05,
   0xd9d4d039, 0xe6db99e5, 0x1fa27cf8, 0xc4ac5665,
   0xf4292244, 0x432aff97, 0xab9423a7, 0xfc93a039,
   0x655b59c3, 0x8f0ccc92, 0xffeff47d, 0x85845dd1,
   0x6fa87e4f, 0xfe2ce6e0, 0xa3014314, 0x4e0811a1,
   0xf7537e82, 0xbd3af235, 0x2ad7d2bb, 0xeb86d391]

/-- The 64 MD5 per-round left-rotation amounts. -/
def md5S : List Nat :=
  [7, 12, 17, 22, 7, 12, 17, 22, 7, 12, 17, 22, 7, 12, 17, 22,
   5, 9, 14, 20, 5, 9, 14, 20, 5, 9, 14, 20, 5, 9, 14, 20,
   4, 11, 16, 23, 4, 11, 16, 23, 4, 11, 16, 23, 4, 11, 16, 23,
   6, 10, 15, 21, 6, 10, 15, 21, 6, 10, 15, 21, 6, 10, 15, 21]

/-- MD5 message-word index for round `i`. -/
def md5G (i : Nat) : Nat :=
  if i < 16 then i
  else if i < 32 then (5 * i + 1) % 16
  else if i < 48 then (3 * i + 5) % 16
  else (7 * i) % 16

/-- MD5 round function (F, G, H, I depending on the round), on 32-bit words. -/
def md5F (i b c d : Nat) : Nat :=
  if i < 16 then (b &&& c) ||| ((b ^^^ 0xffffffff) &&& d)
  else if i < 32 then (d &&& b) ||| ((d ^^^ 0xffffffff) &&& c)
  else if i < 48 then b ^^^ c ^^^ d
  else c ^^^ (b ||| (d ^^^ 0xffffffff))

/-- Left-rotation of a 32-bit word. -/
def rotl32 (x c : Nat) : Nat :=
  ((x <<< c) ||| (x >>> (32 - c))) % 4294967296

/-- One MD5 round step on the state `(A, B, C, D)`. -/
def md5Step (M : List Nat) (st : Nat × Nat × Nat × Nat) (i : Nat) :
    Nat × Nat × Nat × Nat :=
  let a := st.1
  let b := st.2.1
  let c := st.2.2.1
  let d := st.2.2.2
  let f := (md5F i b c d + a + md5K.getD i 0 + M.getD (md5G i) 0) % 4294967296
  (d, (b + rotl32 f (md5S.getD i 0)) % 4294967296, b, c)

/-- The sixteen little-endian 32-bit words of a 64-byte chunk. -/
def chunkWords (chunk : List Nat) : List Nat :=
  (List.range 16).map fun j =>
    chunk.getD (4 * j) 0 + 256 * chunk.getD (4 * j + 1) 0 +
      65536 * chunk.getD (4 * j + 2) 0 + 16777216 * chunk.getD (4 * j + 3) 0

/-- Process one 64-byte chunk: run the 64 round steps, add into the state. -/
def md5ProcessChunk (st : Nat × Nat × Nat × Nat) (chunk : List Nat) :
    Nat × Nat × Nat × Nat :=
  let M := chunkWords chunk
  let r := (List.range 64).foldl (md5Step M) st
  ((st.1 + r.1) % 4294967296, (st.2.1 + r.2.1) % 4294967296,
   (st.2.2.1 + r.2.2.1) % 4294967296, (st.2.2.2 + r.2.2.2) % 4294967296)

/-- MD5 padding: `0x80`, zeros to 56 mod 64, then the 64-bit little-endian
bit length. -/
def md5Pad (msg : List Nat) : List Nat :=
  let len := msg.length
  let zeros := (120 - (len + 1) % 64) % 64
  let bitLen := 8 * len % 18446744073709551616
  msg ++ [128] ++ List.replicate zeros 0 ++
    ((List.range 8).map fun k => bitLen / 256 ^ k % 256)

/-- Split a byte list into 64-byte chunks; the fuel argument bounds the
number of chunks (structural recursion, so the kernel can evaluate it). -/
def md5ChunksAux : Nat → List Nat → List (List Nat)
  | 0, _ => []
  | _ + 1, [] => []
  | fuel + 1, l => l.take 64 :: md5ChunksAux fuel (l.drop 64)

/-- Split a (padded) byte list into 64-byte chunks. -/
def md5Chunks (l : List Nat) : List (List Nat) :=
  md5ChunksAux l.length l

/-- The four 32-bit MD5 state words of a message. -/
def md5Words (msg : List Nat) : Nat × Nat × Nat × Nat :=
  (md5Chunks (md5Pad msg)).foldl md5ProcessChunk
    (0x67452301, 0xefcdab89, 0x98badcfe, 0x10325476)

/-- Lower-case hexadecimal digits. -/
def hexDigits : List Char := "0123456789abcdef".toList

/-- Two-character lower-case hex rendering of a byte. -/
def byteHex (b : Nat) : List Char :=
  [hexDigits.getD (b / 16 % 16) '0', hexDigits.getD (b % 16) '0']

/-- Eight-character hex rendering of a 32-bit word, little-endian byte order
(as `hashlib`'s `hexdigest` renders each state word). -/
def wordLEHex (w : Nat) : List Char :=
  byteHex (w % 256) ++ byteHex (w / 256 % 256) ++
    byteHex (w / 65536 % 256) ++ byteHex (w / 16777216 % 256)

/-- `hashlib.md5(msg).hexdigest()` as a list of 32 hex characters. -/
def md5Hex (msg : List Nat) : List Char :=
  wordLEHex (md5Words msg).1 ++ wordLEHex (md5Words msg).2.1 ++
    wordLEHex (md5Words msg).2.2.1 ++ wordLEHex (md5Words msg).2.2.2

/-- Python `int(s, 16)` on a lower-case hex string. -/
def parseHexNat (cs : List Char) : Nat :=
  cs.foldl (fun acc c => 16 * acc + hexDigits.indexOf c) 0

set_option maxRecDepth 100000

/-- Sanity check of the MD5 embedding against a published digest. -/
theorem md5Hex_nil_eq :
    md5Hex [] = "d41d8cd98f00b204e9800998ecf8427e".toList := by decide

/-- Sanity check of the MD5 embedding against a published digest. -/
theorem md5Hex_abc_eq :
    md5Hex [97, 98, 99] = "900150983cd24fb0d6963f7d28e17f72".toList := by decide

/-! ### The deterministic md5 scores and result categories of the two
flat variants (`main.py` and `new_backend.py`) -/

/-- `main.py`'s `get_deterministic_score`: md5 the bytes, take the first 8 hex
characters as an integer, reduce mod 101, return as float. -/
def get_deterministic_score (data : List Nat) : ℚ :=
  ((parseHexNat ((md5Hex data).take 8)) % 101 : Nat)

/-- `new_backend.py`'s `get_deterministic_score`: same, but its argument is the
already-computed md5 hex digest string. -/
def nb_get_deterministic_score (file_hash : List Char) : ℚ :=
  ((parseHexNat (file_hash.take 8)) % 101 : Nat)

/-- `main.py`'s `get_result_category`. -/
def get_result_category (score : ℚ) : String :=
  if score > 80 then "Likely Manipulated"
  else if score > 50 then "Potentially Manipulated"
  else "Likely Authentic"

/-- `new_backend.py`'s `get_result_category` (textually identical code). -/
def nb_get_result_category (score : ℚ) : String :=
  if score > 80 then "Likely Manipulated"
  else if score > 50 then "Potentially Manipulated"
  else "Likely Authentic"

/-! ### Python `round(x, 2)` modelled on exact rationals -/

attribute [local semireducible] Rat.mul Rat.inv Rat.add Rat.sub Rat.ofScientific

/-- The floor of a rational, written so that the kernel can evaluate it on
concrete inputs (`Rat.floor_def` identifies it with `Int.floor`). -/
def ratFloor (q : ℚ) : ℤ := q.num / q.den

theorem ratFloor_eq_floor (q : ℚ) : ratFloor q = ⌊q⌋ := Rat.floor_def.symm

/-- Round a rational to the nearest integer, ties to even (Python's `round`). -/
def roundHalfEven (q : ℚ) : ℤ :=
  if q - ratFloor q < 1 / 2 then ratFloor q
  else if 1 / 2 < q - ratFloor q then ratFloor q + 1
  else if ratFloor q % 2 = 0 then ratFloor q else ratFloor q + 1

/-- Python's `round(x, 2)`: two decimal places, ties to even. -/
def round2 (q : ℚ) : ℚ :=
  (roundHalfEven (100 * q) : ℚ) / 100

/-- `min(100, max(0, x))`, the clamp used for the signal-feature sub-scores. -/
def clamp0100 (x : ℚ) : ℚ := min 100 (max 0 x)

/-! ### `main.py`: `analyze_with_hybrid_approach` and `process_image`

The OpenCV statistics (`np.std`, noise residual std, Canny edge density, the
sampled texture contrast) are values computed by external libraries from the
image, so they enter the embedding as parameters; everything the repository
does with them is embedded. `cv2.imencode` is likewise external: its result is
`none` when encoding fails, otherwise `some` of the encoded bytes. -/

structure SignalStats where
  std : ℚ
  noise_std : ℚ
  edge_density : ℚ
  contrast : ℚ

/-- `extract_signal_features`' `texture_contrast` entry: `min(1.0, contrast)`. -/
def texture_contrast (s : SignalStats) : ℚ := min 1 s.contrast

structure HybridResult where
  final_score : ℚ
  cnn_score : ℚ
  fft_score : ℚ
  noise_score : ℚ
  edge_score : ℚ
  texture_score : ℚ

/-- `main.py`'s `analyze_with_hybrid_approach` (model loading is disabled in
the source, so the CNN branch always uses the deterministic md5 score, with a
neutral 50.0 when `cv2.imencode` fails). -/
def analyze_with_hybrid_approach (enc : Option (List Nat)) (s : SignalStats) :
    HybridResult :=
  let cnn_score : ℚ :=
    match enc with
    | some bs => get_deterministic_score bs
    | none => 50
  let fft_score := clamp0100 (s.std * 2)
  let noise_score := clamp0100 (s.noise_std * 20)
  let edge_score := clamp0100 ((1 - s.edge_density) * 100)
  let texture_score := clamp0100 (texture_contrast s * 50)
  { final_score := 0.6 * cnn_score + 0.1 * fft_score + 0.1 * noise_score +
      0.1 * edge_score + 0.1 * texture_score
    cnn_score := cnn_score
    fft_score := fft_score
    noise_score := noise_score
    edge_score := edge_score
    texture_score := texture_score }

/-- The JSON fields of an image prediction response (both flat variants
report the same fields). -/
structure ImageResponse where
  score : ℚ
  category : String
  is_deepfake : Bool
  cnn_score : ℚ
  fft_score : ℚ
  noise_score : ℚ
  edge_score : ℚ
  texture_score : ℚ

/-- `main.py`'s `process_image` response: scores and contributions rounded to
two decimals, `is_deepfake` and `category` from the unrounded score. -/
def process_image (enc : Option (List Nat)) (s : SignalStats) : ImageResponse :=
  let r := analyze_with_hybrid_approach enc s
  { score := round2 r.final_score
    category := get_result_category r.final_score
    is_deepfake := decide (r.final_score > 50)
    cnn_score := round2 r.cnn_score
    fft_score := round2 r.fft_score
    noise_score := round2 r.noise_score
    edge_score := round2 r.edge_score
    texture_score := round2 r.texture_score }

/-! ### `new_backend.py`: `predict`

The four `random.random()` draws that jitter the fft/noise/edge/texture
contributions are the run's random state, passed in explicitly. -/

structure Jitter where
  r1 : ℚ
  r2 : ℚ
  r3 : ℚ
  r4 : ℚ

/-- `new_backend.py`'s `predict` for an image upload with bytes `b`:
score from the md5 of the saved file, contributions jittered by
`score + (random.random() * 20 - 10)` and clamped. -/
def nbPredictImage (b : List Nat) (j : Jitter) : ImageResponse :=
  let score := nb_get_deterministic_score (md5Hex b)
  { score := round2 score
    category := nb_get_result_category score
    is_deepfake := decide (score > 50)
    cnn_score := round2 score
    fft_score := round2 (clamp0100 (score + (j.r1 * 20 - 10)))
    noise_score := round2 (clamp0100 (score + (j.r2 * 20 - 10)))
    edge_score := round2 (clamp0100 (score + (j.r3 * 20 - 10)))
    texture_score := round2 (clamp0100 (score + (j.r4 * 20 - 10))) }

/-! ### `main.py`: `process_video` frame sampling and averaging

The sampling loop reads frames sequentially (`cap.read`), analyzes every
`frame_interval`-th frame, and stops after `frames_to_analyze` scores or when a
read fails. The per-frame analysis outcome is abstracted as
`fa : Nat → Option ℚ` (`some s` = `analyze_with_hybrid_approach` returned
score `s`; `none` = it raised, in which case `main.py` substitutes the neutral
score 50.0). `fuel` is the number of frames `cap.read` can still deliver. -/

/-- `frames_to_analyze = min(10, frame_count)`. -/
def frames_to_analyze (fc : Nat) : Nat := min 10 fc

/-- `frame_interval = max(1, frame_count // frames_to_analyze)`. -/
def frame_interval (fc : Nat) : Nat := max 1 (fc / frames_to_analyze fc)

/-- Is `j` a multiple of the interval `i` (the loop's
`frame_index % frame_interval == 0` test)? -/
def isMult (i j : Nat) : Bool := j % i == 0

/-- The indices the `process_video` loop analyzes: walk `idx` upward while
frames remain, record every multiple of `i`, stop once `t` are recorded. -/
def videoSampleLoop (i t : Nat) : Nat → Nat → Nat → List Nat
  | 0, _, _ => []
  | rem + 1, idx, got =>
    if isMult i idx then
      if t ≤ got + 1 then [idx]
      else idx :: videoSampleLoop i t rem (idx + 1) (got + 1)
    else videoSampleLoop i t rem (idx + 1) got

/-- The frame indices `main.py` analyzes for a fully readable video with
`fc` frames. -/
def sampledIndices (fc : Nat) : List Nat :=
  videoSampleLoop (frame_interval fc) (frames_to_analyze fc) fc 0 0

/-- The per-frame score list `frame_scores` built by the loop: one entry per
sampled index, 50.0 substituted when the frame's analysis raised. -/
def videoFrameScores (fc : Nat) (fa : Nat → Option ℚ) : List ℚ :=
  (sampledIndices fc).map fun i => (fa i).getD 50

/-- `avg_score`: the mean of the collected frame scores, 50 if none. -/
def avgScore (frameScores : List ℚ) : ℚ :=
  if frameScores = [] then 50 else frameScores.sum / frameScores.length

/-- The JSON fields of `main.py`'s video prediction response. -/
structure VideoResponse where
  score : ℚ
  category : String
  is_deepfake : Bool
  frame_scores : List ℚ
  frames_analyzed : Nat

/-- `main.py`'s `process_video` response assembled from the collected
`frame_scores` list. -/
def processVideoResponse (frameScores : List ℚ) : VideoResponse :=
  { score := round2 (avgScore frameScores)
    category := get_result_category (avgScore frameScores)
    is_deepfake := decide (avgScore frameScores > 50)
    frame_scores := frameScores.map round2
    frames_analyzed := frameScores.length }

/-! ### `backend/app`: `DeepfakeDetector` and the pydantic response model

The detector's five `_simulate_*` methods hash the frame bytes with Python's
built-in `hash` (salted per process); `hash` enters as a parameter
`pyhash : List Nat → ℤ`. Python's `%` on a positive modulus yields a
nonnegative remainder, which `Int.emod` matches. -/

/-- Byte suffix `b'fft'` appended before hashing in `_simulate_fft_analysis`. -/
def fftSalt : List Nat := [102, 102, 116]

/-- Byte suffix `b'noise'`. -/
def noiseSalt : List Nat := [110, 111, 105, 115, 101]

/-- Byte suffix `b'edge'`. -/
def edgeSalt : List Nat := [101, 100, 103, 101]

/-- Byte suffix `b'texture'`. -/
def textureSalt : List Nat := [116, 101, 120, 116, 117, 114, 101]

/-- `hash(data) % 1000 / 1000` as a rational in `[0, 1)`. -/
def hashUnit (pyhash : List Nat → ℤ) (data : List Nat) : ℚ :=
  ((pyhash data % 1000 : ℤ) : ℚ) / 1000

/-- `_simulate_cnn_detection`: `0.3 + h * 0.5`. -/
def detector_simulate_cnn (pyhash : List Nat → ℤ) (img : List Nat) : ℚ :=
  0.3 + hashUnit pyhash img * 0.5

/-- `_simulate_fft_analysis`: `0.2 + h * 0.7`. -/
def detector_simulate_fft (pyhash : List Nat → ℤ) (img : List Nat) : ℚ :=
  0.2 + hashUnit pyhash (img ++ fftSalt) * 0.7

/-- `_simulate_noise_analysis`: `0.1 + h * 0.6`. -/
def detector_simulate_noise (pyhash : List Nat → ℤ) (img : List Nat) : ℚ :=
  0.1 + hashUnit pyhash (img ++ noiseSalt) * 0.6

/-- `_simulate_edge_detection`: `0.2 + h * 0.6`. -/
def detector_simulate_edge (pyhash : List Nat → ℤ) (img : List Nat) : ℚ :=
  0.2 + hashUnit pyhash (img ++ edgeSalt) * 0.6

/-- `_simulate_texture_analysis`: `0.3 + h * 0.6`. -/
def detector_simulate_texture (pyhash : List Nat → ℤ) (img : List Nat) : ℚ :=
  0.3 + hashUnit pyhash (img ++ textureSalt) * 0.6

/-- The detector's weighted combination of the five sub-scores
(weights 0.4, 0.2, 0.15, 0.15, 0.1). -/
def detector_combined (c f n e t : ℚ) : ℚ :=
  0.4 * c + 0.2 * f + 0.15 * n + 0.15 * e + 0.1 * t

/-- `min(max(combined_score * 100, 0), 100)`. -/
def detector_final_score (c f n e t : ℚ) : ℚ :=
  min (max (detector_combined c f n e t * 100) 0) 100

/-- The detector's category thresholds (`< 30`, `< 70`, else). -/
def detector_category (s : ℚ) : String :=
  if s < 30 then "Likely Authentic"
  else if s < 70 then "Possibly Manipulated"
  else "Likely Deepfake"

/-- `frames_to_analyze = min(frame_count, max_frames_to_analyze)` in
`_analyze_video`. -/
def detector_frames_to_analyze (fc : Nat) : Nat := min fc 10

/-- `frame_interval`: 1 when `frame_count <= 10`, else `frame_count // 10`. -/
def detector_frame_interval (fc : Nat) : Nat :=
  if fc ≤ 10 then 1 else fc / 10

/-- The detector's per-frame loop: seek to `i * frame_interval`, skip the
frame entirely (`continue`) when the read or the analysis fails, otherwise
record its combined score. `fa pos = none` models a failed read or a raised
analysis at position `pos`; `some s` models a successful combined score `s`. -/
def detectorFrameScores (fc : Nat) (fa : Nat → Option ℚ) : List ℚ :=
  (List.range (detector_frames_to_analyze fc)).filterMap fun i =>
    fa (i * detector_frame_interval fc)

/-! The pydantic `AnalysisResult` model: `is_deepfake`, `message`, `file_path`
and `file_type` are declared without defaults, so they are required;
`thumbnail_path` defaults to `None`; the underscore-prefixed fields are
private attributes, not validated fields. Constructing the model with a
required field absent raises a `ValidationError`; unknown keyword arguments
(such as the detector's `score=` and `category=`) are ignored. -/

structure AnalysisResultArgs where
  is_deepfake : Option Bool
  message : Option String
  file_path : Option String
  file_type : Option String
  thumbnail_path : Option String

structure AnalysisResultModel where
  is_deepfake : Bool
  message : String
  file_path : String
  file_type : String
  thumbnail_path : Option String

/-- Pydantic validation of an `AnalysisResult` construction: every required
field must have been supplied. -/
def validate_analysis_result (a : AnalysisResultArgs) :
    Except String AnalysisResultModel :=
  match a.is_deepfake, a.message, a.file_path, a.file_type with
  | some dv, some m, some fp, some ft =>
      Except.ok { is_deepfake := dv, message := m, file_path := fp,
                  file_type := ft, thumbnail_path := a.thumbnail_path }
  | _, _, _, _ => Except.error "ValidationError: field required"

/-- `_analyze_image`: compute the five simulated sub-scores, combine and scale
them, then construct `AnalysisResult(score=..., category=..., is_deepfake=...,
file_path="", file_type="image", feature_contributions=...)` — with no
`message` argument. -/
def detector_analyze_image (pyhash : List Nat → ℤ) (img : List Nat) :
    Except String AnalysisResultModel :=
  let final := detector_final_score
    (detector_simulate_cnn pyhash img) (detector_simulate_fft pyhash img)
    (detector_simulate_noise pyhash img) (detector_simulate_edge pyhash img)
    (detector_simulate_texture pyhash img)
  validate_analysis_result
    { is_deepfake := some (decide (final > 50)), message := none,
      file_path := some "", file_type := some "image", thumbnail_path := none }

/-- `_analyze_video`: raise when no frame could be analyzed, otherwise
construct `AnalysisResult(...)` from the average score — again with no
`message` argument. -/
def detector_analyze_video (fc : Nat) (fa : Nat → Option ℚ) :
    Except String AnalysisResultModel :=
  if detectorFrameScores fc fa = [] then
    Except.error "Failed to analyze any frames in the video"
  else
    validate_analysis_result
      { is_deepfake := some (decide ((detectorFrameScores fc fa).sum /
          ((detectorFrameScores fc fa).length : ℚ) > 50)),
        message := none, file_path := some "", file_type := some "video",
        thumbnail_path := none }

/-! ### Helper lemmas: score ranges, rounding, clamping, means -/

/-- A score value the service considers valid: between 0 and 100. -/
def inRange (x : ℚ) : Prop := 0 ≤ x ∧ x ≤ 100

theorem get_deterministic_score_inRange (b : List Nat) :
    inRange (get_deterministic_score b) := by
  unfold get_deterministic_score inRange
  constructor
  · exact_mod_cast Nat.zero_le _
  · exact_mod_cast Nat.lt_succ_iff.mp (Nat.mod_lt _ (by norm_num))

theorem nb_get_deterministic_score_inRange (h : List Char) :
    inRange (nb_get_deterministic_score h) := by
  unfold nb_get_deterministic_score inRange
  constructor
  · exact_mod_cast Nat.zero_le _
  · exact_mod_cast Nat.lt_succ_iff.mp (Nat.mod_lt _ (by norm_num))

theorem roundHalfEven_nonneg {q : ℚ} (h : 0 ≤ q) : 0 ≤ roundHalfEven q := by
  unfold roundHalfEven
  simp only [ratFloor_eq_floor]
  have hf : (0 : ℤ) ≤ ⌊q⌋ := Int.floor_nonneg.mpr h
  split_ifs <;> omega

theorem roundHalfEven_le {q : ℚ} {B : ℤ} (h : q ≤ B) : roundHalfEven q ≤ B := by
  unfold roundHalfEven
  simp only [ratFloor_eq_floor]
  have hfB : ⌊q⌋ ≤ B := by
    have := Int.floor_le_floor h
    simpa using this
  have hlow : (⌊q⌋ : ℚ) ≤ q := Int.floor_le q
  split_ifs with h1 h2 h3
  · exact hfB
  · have hq : (⌊q⌋ : ℚ) < q := by linarith
    have : (⌊q⌋ : ℚ) < (B : ℤ) := lt_of_lt_of_le hq h
    have : ⌊q⌋ < B := by exact_mod_cast this
    omega
  · exact hfB
  · have hq : (⌊q⌋ : ℚ) < q := by
      push_neg at h1
      by_contra hc
      push_neg at hc
      have : q = (⌊q⌋ : ℚ) := le_antisymm hc hlow
      rw [this] at h1
      norm_num at h1
    have : (⌊q⌋ : ℚ) < (B : ℤ) := lt_of_lt_of_le hq h
    have : ⌊q⌋ < B := by exact_mod_cast this
    omega

theorem roundHalfEven_intCast (n : ℤ) : roundHalfEven (n : ℚ) = n := by
  unfold roundHalfEven
  simp only [ratFloor_eq_floor]
  rw [Int.floor_intCast]
  norm_num

theorem round2_inRange {x : ℚ} (h : inRange x) : inRange (round2 x) := by
  obtain ⟨h0, h100⟩ := h
  unfold round2 inRange
  constructor
  · have : (0 : ℤ) ≤ roundHalfEven (100 * x) := roundHalfEven_nonneg (by linarith)
    exact div_nonneg (by exact_mod_cast this) (by norm_num)
  · have : roundHalfEven (100 * x) ≤ (10000 : ℤ) := by
      apply roundHalfEven_le
      push_cast
      linarith
    have hc : ((roundHalfEven (100 * x) : ℤ) : ℚ) ≤ 10000 := by exact_mod_cast this
    linarith

theorem round2_natCast (m : Nat) : round2 (m : ℚ) = m := by
  unfold round2
  have h : (100 : ℚ) * m = ((100 * m : ℤ) : ℚ) := by push_cast; ring
  rw [h, roundHalfEven_intCast]
  push_cast
  ring

theorem clamp0100_inRange (x : ℚ) : inRange (clamp0100 x) := by
  unfold clamp0100 inRange
  constructor
  · exact le_min (by norm_num) (le_max_left 0 x)
  · exact min_le_left 100 _

theorem hybrid_fields_inRange (enc : Option (List Nat)) (s : SignalStats) :
    inRange (analyze_with_hybrid_approach enc s).cnn_score ∧
    inRange (analyze_with_hybrid_approach enc s).fft_score ∧
    inRange (analyze_with_hybrid_approach enc s).noise_score ∧
    inRange (analyze_with_hybrid_approach enc s).edge_score ∧
    inRange (analyze_with_hybrid_approach enc s).texture_score := by
  unfold analyze_with_hybrid_approach
  refine ⟨?_, clamp0100_inRange _, clamp0100_inRange _,
    clamp0100_inRange _, clamp0100_inRange _⟩
  cases enc with
  | none => exact ⟨by norm_num, by norm_num⟩
  | some bs => exact get_deterministic_score_inRange bs

theorem weighted_combo_inRange {a b c d e : ℚ} (ha : inRange a) (hb : inRange b)
    (hc : inRange c) (hd : inRange d) (he : inRange e) :
    inRange (0.6 * a + 0.1 * b + 0.1 * c + 0.1 * d + 0.1 * e) := by
  obtain ⟨ha0, ha1⟩ := ha
  obtain ⟨hb0, hb1⟩ := hb
  obtain ⟨hc0, hc1⟩ := hc
  obtain ⟨hd0, hd1⟩ := hd
  obtain ⟨he0, he1⟩ := he
  constructor <;> [nlinarith; nlinarith]

theorem hybrid_final_inRange (enc : Option (List Nat)) (s : SignalStats) :
    inRange (analyze_with_hybrid_approach enc s).final_score := by
  obtain ⟨h1, h2, h3, h4, h5⟩ := hybrid_fields_inRange enc s
  have hdef : (analyze_with_hybrid_approach enc s).final_score =
      0.6 * (analyze_with_hybrid_approach enc s).cnn_score +
      0.1 * (analyze_with_hybrid_approach enc s).fft_score +
      0.1 * (analyze_with_hybrid_approach enc s).noise_score +
      0.1 * (analyze_with_hybrid_approach enc s).edge_score +
      0.1 * (analyze_with_hybrid_approach enc s).texture_score := rfl
  rw [hdef]
  exact weighted_combo_inRange h1 h2 h3 h4 h5

theorem list_sum_le_mul (l : List ℚ) (b : ℚ) (h : ∀ x ∈ l, x ≤ b) :
    l.sum ≤ l.length * b := by
  induction l with
  | nil => simp
  | cons a t ih =>
    have ha := h a (by simp)
    have ht := ih fun x hx => h x (by simp [hx])
    simp only [List.sum_cons, List.length_cons]
    push_cast
    nlinarith

theorem avgScore_inRange (l : List ℚ) (h : ∀ x ∈ l, inRange x) :
    inRange (avgScore l) := by
  unfold avgScore
  split_ifs with he
  · exact ⟨by norm_num, by norm_num⟩
  · have hlen : 0 < (l.length : ℚ) := by
      have : 0 < l.length := List.length_pos.mpr he
      exact_mod_cast this
    constructor
    · exact div_nonneg (List.sum_nonneg fun x hx => (h x hx).1) hlen.le
    · rw [div_le_iff₀ hlen]
      have := list_sum_le_mul l 100 fun x hx => (h x hx).2
      linarith

/-! ### Structure of the `process_video` sampling loop -/

theorem videoSampleLoop_eq (i t : Nat) :
    ∀ rem idx got : Nat, got < t →
      videoSampleLoop i t rem idx got =
        ((List.range' idx rem).filter (isMult i)).take (t - got) := by
  intro rem
  induction rem with
  | zero => intro idx got _; simp [videoSampleLoop, List.range']
  | succ m ih =>
    intro idx got hgt
    have hr : List.range' idx (m + 1) = idx :: List.range' (idx + 1) m := rfl
    rw [hr]
    by_cases hm : isMult i idx
    · rw [List.filter_cons_of_pos hm]
      by_cases hbr : t ≤ got + 1
      · have ht : t - got = 1 := by omega
        rw [ht]
        simp [videoSampleLoop, hm, hbr]
      · have hgt1 : got + 1 < t := by omega
        have ht : t - got = (t - (got + 1)) + 1 := by omega
        rw [ht, List.take_succ_cons]
        simp only [videoSampleLoop, if_pos hm, if_neg hbr]
        rw [ih (idx + 1) (got + 1) hgt1]
    · rw [List.filter_cons_of_neg hm]
      simp only [videoSampleLoop, if_neg hm]
      exact ih (idx + 1) got hgt

theorem frames_to_analyze_pos (fc : Nat) (h : 1 ≤ fc) :
    0 < frames_to_analyze fc := by
  unfold frames_to_analyze
  omega

theorem frame_interval_pos (fc : Nat) : 0 < frame_interval fc := by
  unfold frame_interval
  omega

theorem sampledIndices_eq (fc : Nat) (h : 1 ≤ fc) :
    sampledIndices fc =
      ((List.range fc).filter (isMult (frame_interval fc))).take
        (frames_to_analyze fc) := by
  unfold sampledIndices
  rw [videoSampleLoop_eq _ _ fc 0 0 (frames_to_analyze_pos fc h),
    List.range_eq_range', Nat.sub_zero]

theorem filter_range_getLast (i : Nat) (hi : 1 ≤ i) :
    ∀ n : Nat, 1 ≤ n →
      ((List.range n).filter (isMult i)).getLast? = some ((n - 1) / i * i) := by
  intro n
  induction n with
  | zero => omega
  | succ m ih =>
    intro _
    rw [List.range_succ, List.filter_append]
    by_cases hm : isMult i m
    · rw [show List.filter (isMult i) [m] = [m] by simp [hm],
        List.getLast?_concat]
      have hd : i ∣ m := Nat.dvd_of_mod_eq_zero (by simpa [isMult] using hm)
      simp [Nat.div_mul_cancel hd]
    · rcases m with _ | k
      · exact absurd (by simp [isMult]) hm
      · rw [show List.filter (isMult i) [k + 1] = [] by simp [hm],
          List.append_nil, ih (by omega)]
        have hnd : ¬ i ∣ (k + 1) := by
          intro hdvd
          exact hm (by simp [isMult, Nat.mod_eq_zero_of_dvd hdvd])
        simp only [Nat.add_sub_cancel]
        rw [Nat.succ_div_of_not_dvd hnd]

theorem pred_div_mul_add {i m : Nat} (hi : 1 ≤ i) (hm : 1 ≤ m) (hd : i ∣ m) :
    (m - 1) / i * i + i = m := by
  obtain ⟨k, rfl⟩ := hd
  rcases k with _ | k
  · omega
  · have h1 : i * (k + 1) - 1 = i - 1 + i * k := by
      have : i * (k + 1) = i * k + i := by ring
      omega
    rw [h1, Nat.add_mul_div_left _ _ (by omega : 0 < i),
      Nat.div_eq_of_lt (by omega)]
    have : (0 + k) * i = i * k := by ring
    rw [this]
    have : i * (k + 1) = i * k + i := by ring
    omega

theorem filter_range_chain (i : Nat) (hi : 1 ≤ i) (n : Nat) :
    List.Chain' (fun a b => b = a + i) ((List.range n).filter (isMult i)) := by
  induction n with
  | zero => simp
  | succ m ih =>
    rw [List.range_succ, List.filter_append]
    refine List.chain'_append.mpr ⟨ih, ?_, ?_⟩
    · by_cases hm : isMult i m <;> simp [hm]
    · intro x hx y hy
      by_cases hm : isMult i m
      · rw [show List.filter (isMult i) [m] = [m] by simp [hm]] at hy
        simp only [List.head?_cons, Option.mem_def, Option.some.injEq] at hy
        subst hy
        rcases m with _ | k
        · rw [show List.range 0 = [] from rfl] at hx
          simp at hx
        · rw [filter_range_getLast i hi (k + 1) (by omega)] at hx
          simp only [Option.mem_def, Option.some.injEq] at hx
          subst hx
          have hd : i ∣ (k + 1) :=
            Nat.dvd_of_mod_eq_zero (by simpa [isMult] using hm)
          have := pred_div_mul_add hi (by omega : 1 ≤ k + 1) hd
          omega
      · rw [show List.filter (isMult i) [m] = [] by simp [hm]] at hy
        simp at hy

theorem sampledIndices_chain (fc : Nat) (h : 1 ≤ fc) :
    List.Chain' (fun a b => b = a + frame_interval fc) (sampledIndices fc) := by
  rw [sampledIndices_eq fc h]
  exact (filter_range_chain _ (frame_interval_pos fc) fc).take _

theorem sampledIndices_length_le (fc : Nat) (h : 1 ≤ fc) :
    (sampledIndices fc).length ≤ 10 := by
  rw [sampledIndices_eq fc h]
  have h1 := List.length_take_le (frames_to_analyze fc)
    ((List.range fc).filter (isMult (frame_interval fc)))
  have h2 : frames_to_analyze fc ≤ 10 := by unfold frames_to_analyze; omega
  omega

theorem sampledIndices_ne_nil (fc : Nat) (h : 1 ≤ fc) :
    sampledIndices fc ≠ [] := by
  rw [sampledIndices_eq fc h]
  have h0 : 0 ∈ (List.range fc).filter (isMult (frame_interval fc)) :=
    List.mem_filter.mpr ⟨List.mem_range.mpr (by omega), by simp [isMult]⟩
  have hpos : 0 < ((List.range fc).filter (isMult (frame_interval fc))).length :=
    List.length_pos.mpr (List.ne_nil_of_mem h0)
  have ht := frames_to_analyze_pos fc h
  intro hnil
  have hlen := congrArg List.length hnil
  rw [List.length_take, List.length_nil] at hlen
  omega

theorem frame_interval_eq (fc : Nat) (h : 1 ≤ fc) :
    frame_interval fc = max 1 (fc / 10) := by
  unfold frame_interval frames_to_analyze
  rcases le_total 10 fc with h10 | h10
  · rw [min_eq_left h10]
  · rw [min_eq_right h10, Nat.div_self (by omega)]
    have hle : fc / 10 ≤ 10 / 10 := Nat.div_le_div_right h10
    norm_num at hle
    omega

theorem frame_interval_of_ge (fc : Nat) (h : 10 ≤ fc) :
    frame_interval fc = fc / 10 := by
  rw [frame_interval_eq fc (by omega)]
  have : 1 ≤ fc / 10 := (Nat.one_le_div_iff (by omega)).mpr h
  omega

theorem detector_frame_interval_eq (fc : Nat) :
    detector_frame_interval fc = max 1 (fc / 10) := by
  unfold detector_frame_interval
  split_ifs with h
  · have hle : fc / 10 ≤ 10 / 10 := Nat.div_le_div_right h
    norm_num at hle
    omega
  · have : 1 ≤ fc / 10 := (Nat.one_le_div_iff (by omega)).mpr (by omega)
    omega

/-! ### Claim C1: the deterministic score -/

/-- C1: for every byte string, `main.py`'s deterministic score is the md5
digest's first 8 hex characters read as an integer and reduced mod 101; it is
a number in [0, 100], and equal inputs always produce equal scores. -/
theorem c1_deterministic_score (b b' : List Nat) :
    get_deterministic_score b =
      ((parseHexNat ((md5Hex b).take 8) % 101 : Nat) : ℚ) ∧
    0 ≤ get_deterministic_score b ∧ get_deterministic_score b ≤ 100 ∧
    (b = b' → get_deterministic_score b = get_deterministic_score b') :=
  ⟨rfl, (get_deterministic_score_inRange b).1,
    (get_deterministic_score_inRange b).2, fun h => by rw [h]⟩

/-- C1 witness: the theorem applied to the concrete one-byte input `[97]`. -/
theorem c1_deterministic_score_witness :
    get_deterministic_score [97] =
      ((parseHexNat ((md5Hex [97]).take 8) % 101 : Nat) : ℚ) ∧
    0 ≤ get_deterministic_score [97] ∧ get_deterministic_score [97] ≤ 100 ∧
    ([97] = [97] → get_deterministic_score [97] = get_deterministic_score [97]) :=
  c1_deterministic_score [97] [97]

/-! ### Claim C7: the two flat variants agree on their shared primitives -/

/-- C7: `main.py`'s `get_deterministic_score` on bytes equals `new_backend.py`'s
`get_deterministic_score` applied to the md5 hex digest of those bytes, and the
two `get_result_category` functions agree on every score. -/
theorem c7_variants_agree (b : List Nat) (s : ℚ) :
    get_deterministic_score b = nb_get_deterministic_score (md5Hex b) ∧
    get_result_category s = nb_get_result_category s :=
  ⟨rfl, rfl⟩

/-! ### Claim C2: frame sampling stride -/

/-- C2 (counterexample): for a 5-frame video the claimed stride
`frame_count // 10` is 0, but the loop samples indices 0,1,2,3,4 with
consecutive differences of 1, so consecutive sampled indices do not differ by
`frame_count // 10`. -/
theorem c2_stride_counterexample :
    ¬ List.Chain' (fun a b => b = a + 5 / 10) (sampledIndices 5) := by
  intro h
  rw [(by decide : sampledIndices 5 = [0, 1, 2, 3, 4]),
    List.chain'_cons] at h
  exact absurd h.1 (by decide)

/-- C2 (amended): the loop scores at most 10 frames and samples at the fixed
stride `max(1, frame_count // frames_to_analyze)`, which equals
`max(1, frame_count // 10)` and in particular equals `frame_count // 10`
whenever the video has at least 10 frames; the detector variant uses the same
stride (its sampled positions are `i * frame_interval` for `i` below
`min(frame_count, 10)`, so consecutive positions also differ by it). -/
theorem c2_stride_amended (fc : Nat) (h : 1 ≤ fc) :
    (sampledIndices fc).length ≤ 10 ∧
    List.Chain' (fun a b => b = a + frame_interval fc) (sampledIndices fc) ∧
    frame_interval fc = max 1 (fc / 10) ∧
    (10 ≤ fc → frame_interval fc = fc / 10) ∧
    detector_frame_interval fc = max 1 (fc / 10) ∧
    detector_frames_to_analyze fc ≤ 10 :=
  ⟨sampledIndices_length_le fc h, sampledIndices_chain fc h,
    frame_interval_eq fc h, fun h10 => frame_interval_of_ge fc h10,
    detector_frame_interval_eq fc, min_le_right fc 10⟩

/-- C2 witness: the amended statement at a concrete 25-frame video. -/
theorem c2_stride_amended_witness :
    (sampledIndices 25).length ≤ 10 ∧
    List.Chain' (fun a b => b = a + frame_interval 25) (sampledIndices 25) ∧
    frame_interval 25 = max 1 (25 / 10) ∧
    (10 ≤ 25 → frame_interval 25 = 25 / 10) ∧
    detector_frame_interval 25 = max 1 (25 / 10) ∧
    detector_frames_to_analyze 25 ≤ 10 :=
  c2_stride_amended 25 (by norm_num)

/-! ### Claim C3: the video response's score is the (rounded) frame average -/

/-- C3 (counterexample): with frame scores 0, 0, 1 the mean is 1/3, but the
reported score is `round(1/3, 2) = 0.33`, so the reported top-level score does
not equal the arithmetic mean of the per-frame scores. -/
theorem c3_average_counterexample :
    (processVideoResponse [0, 0, 1]).score ≠
      ([0, 0, 1] : List ℚ).sum / (([0, 0, 1] : List ℚ).length : ℚ) := by decide

/-- C3 (amended): the reported score equals the arithmetic mean of the
per-frame scores rounded to two decimals, and `frames_analyzed` equals the
number of per-frame scores, which is at most 10. -/
theorem c3_average_amended (fc : Nat) (fa : Nat → Option ℚ) (h : 1 ≤ fc) :
    (processVideoResponse (videoFrameScores fc fa)).score =
      round2 ((videoFrameScores fc fa).sum /
        ((videoFrameScores fc fa).length : ℚ)) ∧
    (processVideoResponse (videoFrameScores fc fa)).frames_analyzed =
      (videoFrameScores fc fa).length ∧
    (videoFrameScores fc fa).length ≤ 10 := by
  have hne : videoFrameScores fc fa ≠ [] := by
    unfold videoFrameScores
    intro hnil
    exact sampledIndices_ne_nil fc h (List.map_eq_nil_iff.mp hnil)
  refine ⟨?_, rfl, ?_⟩
  · show round2 (avgScore (videoFrameScores fc fa)) = _
    unfold avgScore
    rw [if_neg hne]
  · unfold videoFrameScores
    rw [List.length_map]
    exact sampledIndices_length_le fc h

/-- C3 witness: the amended statement for a 3-frame video whose frames all
analyze successfully with score 50. -/
theorem c3_average_amended_witness :
    (processVideoResponse (videoFrameScores 3 fun _ => some 50)).score =
      round2 ((videoFrameScores 3 fun _ => some 50).sum /
        (((videoFrameScores 3 fun _ => some 50).length : Nat) : ℚ)) ∧
    (processVideoResponse (videoFrameScores 3 fun _ => some 50)).frames_analyzed =
      (videoFrameScores 3 fun _ => some 50).length ∧
    (videoFrameScores 3 fun _ => some 50).length ≤ 10 :=
  c3_average_amended 3 (fun _ => some 50) (by norm_num)

/-! ### Claim C4: score = weighted combination of the five sub-scores -/

/-- C4 (counterexample): on a concrete image (encoded bytes `[0]`, std 0.015,
no noise, full edge density, zero contrast) the reported (rounded) score does
not equal the weighted combination of the reported (rounded) feature
contributions with the hardcoded weights 0.6/0.1/0.1/0.1/0.1: rounding the
score and rounding the sub-scores do not commute with the combination. -/
theorem c4_weighted_counterexample :
    (process_image (some [0]) ⟨3/200, 0, 1, 0⟩).score ≠
      0.6 * (process_image (some [0]) ⟨3/200, 0, 1, 0⟩).cnn_score +
      0.1 * (process_image (some [0]) ⟨3/200, 0, 1, 0⟩).fft_score +
      0.1 * (process_image (some [0]) ⟨3/200, 0, 1, 0⟩).noise_score +
      0.1 * (process_image (some [0]) ⟨3/200, 0, 1, 0⟩).edge_score +
      0.1 * (process_image (some [0]) ⟨3/200, 0, 1, 0⟩).texture_score := by
  decide

/-- C4 (amended): before rounding, `main.py`'s final score is exactly the
0.6/0.1/0.1/0.1/0.1 combination of the five unrounded sub-scores (weights
summing to 1) and the response reports that combination rounded to two
decimals; in `new_backend.py` the reported score equals the reported
`cnn_score` contribution (the other four contributions are jittered); in the
`backend/app` detector the computed score is the 0.4/0.2/0.15/0.15/0.1
combination (weights summing to 1) of its five sub-scores scaled by 100 and
clamped to [0, 100]. -/
theorem c4_weighted_amended (enc : Option (List Nat)) (s : SignalStats)
    (b : List Nat) (j : Jitter) (c f n e t : ℚ) :
    (analyze_with_hybrid_approach enc s).final_score =
      0.6 * (analyze_with_hybrid_approach enc s).cnn_score +
      0.1 * (analyze_with_hybrid_approach enc s).fft_score +
      0.1 * (analyze_with_hybrid_approach enc s).noise_score +
      0.1 * (analyze_with_hybrid_approach enc s).edge_score +
      0.1 * (analyze_with_hybrid_approach enc s).texture_score ∧
    (0.6 + 0.1 + 0.1 + 0.1 + 0.1 : ℚ) = 1 ∧
    (process_image enc s).score =
      round2 (analyze_with_hybrid_approach enc s).final_score ∧
    (nbPredictImage b j).score = (nbPredictImage b j).cnn_score ∧
    detector_final_score c f n e t =
      min (max ((0.4 * c + 0.2 * f + 0.15 * n + 0.15 * e + 0.1 * t) * 100) 0)
        100 ∧
    (0.4 + 0.2 + 0.15 + 0.15 + 0.1 : ℚ) = 1 :=
  ⟨rfl, by norm_num, rfl, rfl, rfl, by norm_num⟩

/-! ### Claim C5: run-to-run determinism -/

/-- C5 (counterexample): `new_backend.py`'s fft contribution is
`score + (random.random() * 20 - 10)` clamped; two runs on the same bytes with
different random draws (0 and 1/2) report different `fft_score` values, so the
feature contributions are not a deterministic function of the file bytes. -/
theorem c5_determinism_counterexample :
    (nbPredictImage [0] ⟨0, 0, 0, 0⟩).fft_score ≠
      (nbPredictImage [0] ⟨1/2, 0, 0, 0⟩).fft_score := by
  decide

/-- C5 (amended): the top-level score, `cnn_score`, category and verdict are
deterministic functions of the uploaded bytes (they do not depend on the
random draws), but the remaining feature contributions are jittered per run,
and the detector's simulated sub-scores depend on the per-process `hash`
seed: two different hash functions give different cnn sub-scores. -/
theorem c5_determinism_amended (b : List Nat) (j j' : Jitter)
    (img : List Nat) :
    (nbPredictImage b j).score = (nbPredictImage b j').score ∧
    (nbPredictImage b j).cnn_score = (nbPredictImage b j').cnn_score ∧
    (nbPredictImage b j).category = (nbPredictImage b j').category ∧
    (nbPredictImage b j).is_deepfake = (nbPredictImage b j').is_deepfake ∧
    detector_simulate_cnn (fun _ => 0) img ≠
      detector_simulate_cnn (fun _ => 500) img := by
  refine ⟨rfl, rfl, rfl, rfl, ?_⟩
  unfold detector_simulate_cnn hashUnit
  norm_num

/-! ### Claim C6: failed frames in the video loops -/

/-- C6 (counterexample): in `main.py`'s loop a frame whose analysis fails is
not skipped: for a one-frame video whose single frame analysis raises, the
frame-score list is `[50.0]` — the failed frame contributes a neutral score
and is counted in the average rather than being excluded. -/
theorem c6_skip_counterexample :
    videoFrameScores 1 (fun _ => none) = [50] ∧
    (videoFrameScores 1 (fun _ => none)).length ≠ 0 := by
  constructor <;> decide

/-- C6 (amended): in the `backend/app` detector's loop a failed read or
analysis is skipped — it contributes nothing (all-failing videos produce an
empty score list, and every collected score comes from a successfully analyzed
sampled position) — whereas `main.py`'s loop substitutes the neutral score
50.0 for a frame whose analysis fails, so its `frame_scores` list always has
exactly one entry per sampled frame. -/
theorem c6_skip_amended (fc : Nat) (fa : Nat → Option ℚ) :
    ((∀ p, fa p = none) → detectorFrameScores fc fa = []) ∧
    (∀ q, q ∈ detectorFrameScores fc fa →
      ∃ k, k < detector_frames_to_analyze fc ∧
        fa (k * detector_frame_interval fc) = some q) ∧
    (videoFrameScores fc fa).length = (sampledIndices fc).length := by
  refine ⟨?_, ?_, ?_⟩
  · intro hall
    unfold detectorFrameScores
    simp [hall]
  · intro q hq
    unfold detectorFrameScores at hq
    rw [List.mem_filterMap] at hq
    obtain ⟨k, hk, hfk⟩ := hq
    exact ⟨k, List.mem_range.mp hk, hfk⟩
  · unfold videoFrameScores
    exact List.length_map _ _

/-- C6 witness: the amended statement at a one-frame video all of whose frame
analyses fail. -/
theorem c6_skip_amended_witness :
    detectorFrameScores 1 (fun _ => none) = [] ∧
    (videoFrameScores 1 (fun _ => none)).length =
      (sampledIndices 1).length :=
  ⟨(c6_skip_amended 1 fun _ => none).1 fun _ => rfl,
    (c6_skip_amended 1 fun _ => none).2.2⟩

/-! ### Claim C8: verdict and category come from the same unrounded score -/

/-- C8: in every variant's response construction, `is_deepfake` is true
exactly when the unrounded score exceeds 50, and `category` is the variant's
threshold function applied to that same unrounded score (for `main.py`'s
image path the score is the hybrid final score; for its video path the frame
average; for `new_backend.py` the md5 score; the detector applies
`decide (score > 50)` and its own three thresholds to its combined score). -/
theorem c8_verdict_consistency (enc : Option (List Nat)) (s : SignalStats)
    (fs : List ℚ) (b : List Nat) (j : Jitter) (v : ℚ) :
    ((process_image enc s).is_deepfake = true ↔
      (analyze_with_hybrid_approach enc s).final_score > 50) ∧
    (process_image enc s).category =
      get_result_category (analyze_with_hybrid_approach enc s).final_score ∧
    ((processVideoResponse fs).is_deepfake = true ↔ avgScore fs > 50) ∧
    (processVideoResponse fs).category = get_result_category (avgScore fs) ∧
    ((nbPredictImage b j).is_deepfake = true ↔
      nb_get_deterministic_score (md5Hex b) > 50) ∧
    (nbPredictImage b j).category =
      nb_get_result_category (nb_get_deterministic_score (md5Hex b)) ∧
    (detector_category v = (if v < 30 then "Likely Authentic"
      else if v < 70 then "Possibly Manipulated" else "Likely Deepfake")) :=
  ⟨⟨of_decide_eq_true, decide_eq_true⟩, rfl,
    ⟨of_decide_eq_true, decide_eq_true⟩, rfl,
    ⟨of_decide_eq_true, decide_eq_true⟩, rfl, rfl⟩

/-! ### Claim C9: every reported score and sub-score lies in [0, 100] -/

theorem hashUnit_bounds (pyhash : List Nat → ℤ) (d : List Nat) :
    0 ≤ hashUnit pyhash d ∧ hashUnit pyhash d < 1 := by
  unfold hashUnit
  have h0 : (0 : ℤ) ≤ pyhash d % 1000 := Int.emod_nonneg _ (by norm_num)
  have h1 : pyhash d % 1000 < 1000 := Int.emod_lt_of_pos _ (by norm_num)
  constructor
  · exact div_nonneg (by exact_mod_cast h0) (by norm_num)
  · rw [div_lt_one (by norm_num)]
    exact_mod_cast h1

theorem detector_sims_inRange (pyhash : List Nat → ℤ) (img : List Nat) :
    inRange (detector_simulate_cnn pyhash img) ∧
    inRange (detector_simulate_fft pyhash img) ∧
    inRange (detector_simulate_noise pyhash img) ∧
    inRange (detector_simulate_edge pyhash img) ∧
    inRange (detector_simulate_texture pyhash img) := by
  unfold detector_simulate_cnn detector_simulate_fft detector_simulate_noise
    detector_simulate_edge detector_simulate_texture
  obtain ⟨ha, hb⟩ := hashUnit_bounds pyhash img
  obtain ⟨ha1, hb1⟩ := hashUnit_bounds pyhash (img ++ fftSalt)
  obtain ⟨ha2, hb2⟩ := hashUnit_bounds pyhash (img ++ noiseSalt)
  obtain ⟨ha3, hb3⟩ := hashUnit_bounds pyhash (img ++ edgeSalt)
  obtain ⟨ha4, hb4⟩ := hashUnit_bounds pyhash (img ++ textureSalt)
  unfold inRange
  refine ⟨⟨?_, ?_⟩, ⟨?_, ?_⟩, ⟨?_, ?_⟩, ⟨?_, ?_⟩, ⟨?_, ?_⟩⟩ <;> nlinarith

theorem videoFrameScores_hybrid_inRange (fc : Nat)
    (frameIn : Nat → Option (Option (List Nat) × SignalStats)) :
    ∀ x ∈ videoFrameScores fc (fun i => (frameIn i).map fun p =>
      (analyze_with_hybrid_approach p.1 p.2).final_score), inRange x := by
  intro x hx
  unfold videoFrameScores at hx
  rw [List.mem_map] at hx
  obtain ⟨i, _, rfl⟩ := hx
  cases h : frameIn i with
  | none => simp only [h, Option.map_none, Option.getD_none]; exact ⟨by norm_num, by norm_num⟩
  | some p =>
    simp only [h, Option.map_some, Option.getD_some]
    exact hybrid_final_inRange p.1 p.2

/-- C9: every reported top-level score and every reported feature sub-score,
in each variant, lies in the closed interval [0, 100]: the md5 score is a
residue mod 101, the signal sub-scores are clamped by `min(100, max(0, _))`,
weighted combinations of in-range values with weights summing to 1 stay in
range, frame averages of in-range scores stay in range, rounding to two
decimals stays in range, and the detector's simulated sub-scores lie in
sub-intervals of [0, 1] ⊆ [0, 100] with its final score clamped. -/
theorem c9_range_invariant (enc : Option (List Nat)) (s : SignalStats)
    (b : List Nat) (j : Jitter) (pyhash : List Nat → ℤ) (img : List Nat)
    (fc : Nat) (frameIn : Nat → Option (Option (List Nat) × SignalStats))
    (c f n e t : ℚ) :
    inRange (process_image enc s).score ∧
    inRange (process_image enc s).cnn_score ∧
    inRange (process_image enc s).fft_score ∧
    inRange (process_image enc s).noise_score ∧
    inRange (process_image enc s).edge_score ∧
    inRange (process_image enc s).texture_score ∧
    inRange (nbPredictImage b j).score ∧
    inRange (nbPredictImage b j).cnn_score ∧
    inRange (nbPredictImage b j).fft_score ∧
    inRange (nbPredictImage b j).noise_score ∧
    inRange (nbPredictImage b j).edge_score ∧
    inRange (nbPredictImage b j).texture_score ∧
    inRange (processVideoResponse (videoFrameScores fc (fun i =>
      (frameIn i).map fun p =>
        (analyze_with_hybrid_approach p.1 p.2).final_score))).score ∧
    inRange (detector_simulate_cnn pyhash img) ∧
    inRange (detector_simulate_fft pyhash img) ∧
    inRange (detector_simulate_noise pyhash img) ∧
    inRange (detector_simulate_edge pyhash img) ∧
    inRange (detector_simulate_texture pyhash img) ∧
    inRange (detector_final_score c f n e t) := by
  obtain ⟨h1, h2, h3, h4, h5⟩ := hybrid_fields_inRange enc s
  obtain ⟨d1, d2, d3, d4, d5⟩ := detector_sims_inRange pyhash img
  refine ⟨round2_inRange (hybrid_final_inRange enc s), round2_inRange h1,
    round2_inRange h2, round2_inRange h3, round2_inRange h4,
    round2_inRange h5,
    round2_inRange (nb_get_deterministic_score_inRange _),
    round2_inRange (nb_get_deterministic_score_inRange _),
    round2_inRange (clamp0100_inRange _), round2_inRange (clamp0100_inRange _),
    round2_inRange (clamp0100_inRange _), round2_inRange (clamp0100_inRange _),
    round2_inRange (avgScore_inRange _
      (videoFrameScores_hybrid_inRange fc frameIn)),
    d1, d2, d3, d4, d5, ?_⟩
  unfold detector_final_score inRange
  constructor
  · exact le_min (le_max_right _ 0) (by norm_num)
  · exact min_le_right _ 100

/-! ### Claim C10: the detector's responses never validate -/

/-- C10: the pydantic `AnalysisResult` model requires `message`, but both
`_analyze_image` and `_analyze_video` construct `AnalysisResult` without a
`message` argument, so model validation fails and `DeepfakeDetector.analyze`
raises on every input instead of ever returning a successful result; in
general, any `AnalysisResult` construction without `message` fails
validation. -/
theorem c10_message_validation_error (pyhash : List Nat → ℤ) (img : List Nat)
    (fc : Nat) (fa : Nat → Option ℚ) :
    detector_analyze_image pyhash img =
      Except.error "ValidationError: field required" ∧
    (∃ errmsg, detector_analyze_video fc fa = Except.error errmsg) ∧
    (∀ a : AnalysisResultArgs, a.message = none →
      ∀ r, validate_analysis_result a ≠ Except.ok r) := by
  refine ⟨rfl, ?_, ?_⟩
  · unfold detector_analyze_video
    split_ifs with h
    · exact ⟨_, rfl⟩
    · exact ⟨_, rfl⟩
  · intro a hmsg r
    rcases a with ⟨d, m, fp, ft, tp⟩
    simp only at hmsg
    subst hmsg
    cases d <;> cases fp <;> cases ft <;> simp [validate_analysis_result]

/-- C10 witness: the theorem at a concrete hash function, image and
one-frame video. -/
theorem c10_message_validation_error_witness :
    detector_analyze_image (fun _ => 0) [] =
      Except.error "ValidationError: field required" ∧
    (∃ errmsg, detector_analyze_video 1 (fun _ => some 50) =
      Except.error errmsg) ∧
    (∀ a : AnalysisResultArgs, a.message = none →
      ∀ r, validate_analysis_result a ≠ Except.ok r) :=
  c10_message_validation_error (fun _ => 0) [] 1 fun _ => some 50
